import Mathlib

/-!
# Verification of the KPI tracking / zone-scoped authorization engine

Shallow embedding of the KPI subsystem of the `invoivebackend` repository
(`src/kpi.py`).  Python dictionaries become Lean structures with `Option`
fields for keys that may be absent; Python falsiness of strings (`None` or
`""`) is modelled by the helper `strOf`/`pyOrStr`; MongoDB single-document
reads become lookups in explicit lists; UTC instants are integers (seconds
since an arbitrary epoch); IANA time zones are modelled by their canonical
key (a `String`) together with an environment oracle `validZone` saying
which keys name installed zones, and — for the date arithmetic of
`_parse_eod_in_tz` / `_fmt_date_in_tz` — by a fixed UTC offset in seconds.
A calendar date `YYYY-MM-DD` is represented by its proleptic-Gregorian day
ordinal (an `Int`), the representation Python's `datetime.date` is in
bijection with (`toordinal`/`fromordinal`); the date string and the
ordinal determine each other.
-/

namespace KpiBackend

/-- `(o or "")` on an optional string field of a Python dict. -/
def strOf (o : Option String) : String := o.getD ""

/-- Python `a or b` for strings (empty string is falsy). -/
def pyOrStr (a b : String) : String := if a = "" then b else a

/-- Python truthiness of an optional string: `None` and `""` are falsy. -/
def truthy (o : Option String) : Bool := strOf o ≠ ""

/-! Pure character-level implementations of the Python string operations the
module uses (`strip`, `lower`, single-character `replace`, `split`).  They
agree with Python on the ASCII data this backend handles and, unlike the
opaque builtins of core `String`, evaluate inside the kernel, so concrete
witnesses can be checked by `decide`/`rfl`. -/

/-- Python `str.strip()`. -/
def pyTrim (s : String) : String :=
  ⟨((s.data.dropWhile Char.isWhitespace).reverse.dropWhile Char.isWhitespace).reverse⟩

/-- ASCII lowering of one character. -/
def lowerChar (c : Char) : Char :=
  if 'A' ≤ c ∧ c ≤ 'Z' then Char.ofNat (c.toNat + 32) else c

/-- Python `str.lower()` (ASCII). -/
def pyLower (s : String) : String := ⟨s.data.map lowerChar⟩

/-- Python `str.replace(a, b)` for single characters. -/
def pyReplaceChar (a b : Char) (s : String) : String :=
  ⟨s.data.map (fun c => if c == a then b else c)⟩

/-- Splitting on a separator character, keeping empty parts
(Python `str.split(sep)`). -/
def splitOnCharAux (sep : Char) : List Char → List Char → List (List Char)
  | [], acc => [acc.reverse]
  | c :: cs, acc =>
    if c == sep then acc.reverse :: splitOnCharAux sep cs []
    else splitOnCharAux sep cs (c :: acc)

/-- Python `str.split(sep)` for a single-character separator. -/
def pySplitOnChar (sep : Char) (s : String) : List String :=
  (splitOnCharAux sep s.data []).map (fun l => ⟨l⟩)

/-- Splitting on whitespace, parts in order, empties kept for filtering. -/
def splitWsAux : List Char → List Char → List (List Char)
  | [], acc => [acc.reverse]
  | c :: cs, acc =>
    if c.isWhitespace then acc.reverse :: splitWsAux cs []
    else splitWsAux cs (c :: acc)

/-- Python `str.split()` with no argument: split on whitespace runs,
no empty parts. -/
def pySplitWs (s : String) : List String :=
  ((splitWsAux s.data []).map (fun l => (⟨l⟩ : String))).filter (fun x => x ≠ "")

/-- `leadMatch n h` : the char list `n` occurs at the head of `h`. -/
def leadMatch : List Char → List Char → Bool
  | [], _ => true
  | _ :: _, [] => false
  | a :: as, b :: bs => a == b && leadMatch as bs

/-- `hasSub n h` : the char list `n` occurs contiguously somewhere in `h`
(Python's `n in h` on strings, and the effect of `re.search(re.escape n, h)`). -/
def hasSub (needle : List Char) : List Char → Bool
  | [] => needle.isEmpty
  | c :: cs => leadMatch needle (c :: cs) || hasSub needle cs

/-- Authorization mode, the three results of `_kpi_mode` (src/kpi.py:105-119). -/
inductive Mode
  | admin
  | manage
  | self
deriving DecidableEq, Repr

/-- The `zoneIds` claim as it arrives in the JWT: absent, a JSON/Python list,
or a plain string.  A string that `json.loads` parses into a list is modelled
by `ofList` (the code maps it elementwise exactly like a real list,
src/kpi.py:64-71); `ofStr` covers strings that are not JSON lists, for which
the code falls through to the delimiter split. -/
inductive ZoneIdsRaw
  | null
  | ofList (xs : List String)
  | ofStr (s : String)
deriving DecidableEq, Repr

/-- `_normalize_zone_ids` (src/kpi.py:51-78). -/
def normalize_zone_ids : ZoneIdsRaw → List String
  | .null => []
  | .ofList xs => (xs.map pyTrim).filter (fun x => x ≠ "")
  | .ofStr raw =>
    let s := pyTrim raw
    if s = "" then []
    else if s = "*" then ["*"]
    else
      let parts := (pySplitOnChar ',' (pyReplaceChar '|' ',' (pyReplaceChar ';' ',' s))).map pyTrim
      parts.filter (fun p => p ≠ "")

/-- `_is_multi_zone` (src/kpi.py:81-82). -/
def is_multi_zone (zone_ids : List String) : Bool :=
  zone_ids.contains "*" || zone_ids.length > 1

/-- The JWT claim set (src/kpi.py:85-98 documents the expected shape).
Permission values are the integers the code compares via
`int(perms.get(k, 0)) == 1`. -/
structure JwtClaims where
  role : Option String
  zoneIds : ZoneIdsRaw
  employeeId : Option String
  permissions : List (String × Int)
deriving DecidableEq, Repr

/-- `perms.get(k, 0)` on the permission map. -/
def permGet (perms : List (String × Int)) (k : String) : Int :=
  (perms.lookup k).getD 0

/-- Result tuple of `_scope` (src/kpi.py:85-98). -/
structure ScopeResult where
  role : String
  zone_ids : List String
  perms : List (String × Int)
  is_admin_all : Bool
deriving DecidableEq, Repr

/-- `_scope` (src/kpi.py:85-98). -/
def scope (c : JwtClaims) : ScopeResult :=
  let role := pyLower (strOf c.role)
  let zone_ids := normalize_zone_ids c.zoneIds
  let perms := c.permissions
  let is_admin_all := role == "admin" && (zone_ids.isEmpty || zone_ids.contains "*")
  ⟨role, zone_ids, perms, is_admin_all⟩

/-- `_caller_employee_id` (src/kpi.py:101-102). -/
def caller_employee_id (c : JwtClaims) : String :=
  pyTrim (strOf c.employeeId)

/-- `_kpi_mode` (src/kpi.py:105-119).  `PermissionError` becomes `.error`. -/
def kpi_mode (c : JwtClaims) : Except String Mode :=
  let sc := scope c
  if sc.role = "admin" then .ok .admin
  else if permGet sc.perms "Manage KPI" = 1 then .ok .manage
  else if permGet sc.perms "KPI" = 1 then .ok .self
  else .error "Permission denied (KPI)"

/-- `_require_manage_kpi` (src/kpi.py:122-124). -/
def require_manage_kpi (c : JwtClaims) : Except String Unit := do
  let m ← kpi_mode c
  if m ≠ .admin ∧ m ≠ .manage then
    .error "Permission denied (Manage KPI required)"
  else
    .ok ()

/-- `_ensure_zone_allowed` (src/kpi.py:127-135). -/
def ensure_zone_allowed (c : JwtClaims) (zone_id : Option String) : Except String Unit :=
  let sc := scope c
  if sc.is_admin_all then .ok ()
  else if sc.zone_ids.isEmpty then .error "Forbidden (no zone scope)"
  else if ¬ truthy zone_id ∨ ¬ sc.zone_ids.contains (strOf zone_id) then
    .error "Forbidden (different zone)"
  else .ok ()

/-! ## Timezone resolver (src/kpi.py:17-38, 146-175) -/

/-- `TZ_ALIASES` (src/kpi.py:21-25). -/
def TZ_ALIASES : List (String × String) :=
  [("Asia/Calcutta", "Asia/Kolkata"),
   ("US/Pacific", "America/Los_Angeles"),
   ("PST8PDT", "America/Los_Angeles")]

/-- `TZ_ALIASES.get(name, name)`. -/
def aliasOf (name : String) : String :=
  (TZ_ALIASES.lookup name).getD name

/-- `OFFICE_TZ_MAP` (src/kpi.py:27-38), in insertion order (the code iterates
`dict.items()`, which preserves it). -/
def OFFICE_TZ_MAP : List (String × String) :=
  [("india", "Asia/Kolkata"),
   ("kolkata", "Asia/Kolkata"),
   ("delhi", "Asia/Kolkata"),
   ("in", "Asia/Kolkata"),
   ("las vegas", "America/Los_Angeles"),
   ("vegas", "America/Los_Angeles"),
   ("usa", "America/Los_Angeles"),
   ("us", "America/Los_Angeles"),
   ("united states", "America/Los_Angeles"),
   ("america", "America/Los_Angeles")]

/-- `DEFAULT_TZ` key (src/kpi.py:18). -/
def DEFAULT_TZ : String := "Asia/Kolkata"

/-- `_tz_from_name` (src/kpi.py:146-153).  A `ZoneInfo` object is modelled by
its key; `validZone` is the environment's tzdata: `ZoneInfo(n)` succeeds
exactly when `validZone n`. -/
def tz_from_name (validZone : String → Bool) (name : String) : String :=
  if name = "" then DEFAULT_TZ
  else
    let n := aliasOf name
    if validZone n then n else DEFAULT_TZ

/-- `_tz_key` (src/kpi.py:156-158): the zone's key, re-canonicalized. -/
def tz_key (key : String) : String := aliasOf key

/-- An employee document, the fields the KPI module reads
(src/kpi.py:161-175, 263-267, 343-345). -/
structure Employee where
  employeeId : Option String := none
  zoneId : Option String := none
  zone_id : Option String := none
  timezone : Option String := none
  tz : Option String := none
  office : Option String := none
  branch : Option String := none
  location : Option String := none
  name : Option String := none
deriving DecidableEq, Repr

/-- The empty dict `{}` used when a caller lookup misses (src/kpi.py:266). -/
def emptyEmployee : Employee := {}

/-- `_employee_zone_id` (src/kpi.py:161-163). -/
def employee_zone_id (emp : Employee) : Option String :=
  let zid := pyTrim (pyOrStr (strOf emp.zoneId) (strOf emp.zone_id))
  if zid = "" then none else some zid

/-- `_employee_timezone` (src/kpi.py:166-175), returning the zone key. -/
def employee_timezone (validZone : String → Bool) (emp : Employee) : String :=
  let tz_name := pyTrim (pyOrStr (strOf emp.timezone) (strOf emp.tz))
  if tz_name ≠ "" then tz_from_name validZone tz_name
  else
    let office :=
      pyLower (pyTrim (pyOrStr (pyOrStr (strOf emp.office) (strOf emp.branch)) (strOf emp.location)))
    match OFFICE_TZ_MAP.find? (fun kv => hasSub kv.1.data office.data) with
    | some kv => kv.2
    | none => DEFAULT_TZ

/-- Request context: the caller's claims plus the parts of the environment
the module reads (the tzdata oracle and the `employees` collection). -/
structure Ctx where
  claims : JwtClaims
  validZone : String → Bool
  employees : List Employee

/-- `db.employees.find_one({"employeeId": eid})` for a known string id. -/
def findEmployee (ctx : Ctx) (eid : String) : Option Employee :=
  ctx.employees.find? (fun e => e.employeeId == some eid)

/-- `_caller_timezone_key` (src/kpi.py:259-267). -/
def caller_timezone_key (ctx : Ctx) : String :=
  let emp_id := caller_employee_id ctx.claims
  if emp_id = "" then tz_key DEFAULT_TZ
  else
    let emp := (findEmployee ctx emp_id).getD emptyEmployee
    tz_key (employee_timezone ctx.validZone emp)

/-- `_ensure_employee_scope` (src/kpi.py:270-300). -/
def ensure_employee_scope (ctx : Ctx) (employee_doc : Employee) : Except String Unit := do
  let mode ← kpi_mode ctx.claims
  let sc := scope ctx.claims
  let zid := employee_zone_id employee_doc
  ensure_zone_allowed ctx.claims zid
  match mode with
  | .admin => .ok ()
  | .self =>
    if strOf employee_doc.employeeId ≠ caller_employee_id ctx.claims then
      .error "Forbidden: KPI permission allows self-only"
    else .ok ()
  | .manage =>
    if ¬ sc.is_admin_all ∧ ¬ is_multi_zone sc.zone_ids then
      let caller_tz := caller_timezone_key ctx
      let target_tz := tz_key (employee_timezone ctx.validZone employee_doc)
      if target_tz ≠ caller_tz then
        .error "Forbidden: Manage KPI allows same-timezone employees only"
      else .ok ()
    else .ok ()

/-! ## Dates and instants (src/kpi.py:178-222)

A UTC instant is an `Int` (seconds since the epoch).  A tz-aware local
datetime, as produced by `d.replace(tzinfo=tz)`, is a local day ordinal
plus seconds-of-day; `astimezone` shifts by the zone's UTC offset `off`
(in seconds).  The date string `"YYYY-MM-DD"` is represented by the day
ordinal of that date. -/

/-- A tz-aware local datetime: local calendar day ordinal and second of day. -/
structure LocalDT where
  day : Int
  sod : Int
deriving DecidableEq, Repr

/-- `_parse_date_in_tz` (src/kpi.py:202-208): a well-formed `YYYY-MM-DD`
string (here: its day ordinal) becomes local midnight in the zone. -/
def parse_date_in_tz (day : Int) : LocalDT := ⟨day, 0⟩

/-- `_end_of_day_local` (src/kpi.py:211-212): `replace(hour=23, minute=59,
second=59, microsecond=0)`, i.e. second-of-day 86399. -/
def end_of_day_local (ldt : LocalDT) : LocalDT := { ldt with sod := 23 * 3600 + 59 * 60 + 59 }

/-- `_parse_eod_in_tz` (src/kpi.py:215-216). -/
def parse_eod_in_tz (day : Int) : LocalDT := end_of_day_local (parse_date_in_tz day)

/-- `local.astimezone(UTC)` for a local datetime in a zone at UTC offset
`off` seconds: the UTC instant it denotes. -/
def toUtcInstant (ldt : LocalDT) (off : Int) : Int :=
  ldt.day * 86400 + ldt.sod - off

/-- `_as_tz` (src/kpi.py:186-187) for an instant and a fixed-offset zone:
the local datetime reading of instant `t` in the zone. -/
def localOfInstant (t off : Int) : LocalDT :=
  ⟨(t + off) / 86400, (t + off) % 86400⟩

/-- `_fmt_date_in_tz` (src/kpi.py:190-191) on a datetime: convert into the
zone and keep the `%Y-%m-%d` part (here: the local day ordinal). -/
def fmt_date_in_tz (t off : Int) : Int :=
  (localOfInstant t off).day

/-! ## KPI documents, creation, punch (src/kpi.py:464-534, 610-680) -/

/-- One element of the `punches` array (src/kpi.py:651-656). -/
structure PunchRec where
  punchDate : Int
  remark : String
  pointChange : Int
  status : String
deriving DecidableEq, Repr

/-- A KPI document.  Optional fields model dict keys that may be absent on
legacy documents; `addKpi` fills them all (src/kpi.py:506-524). -/
structure KpiDoc where
  kpiId : Option String := none
  zoneId : Option String := none
  employeeId : Option String := none
  employeeName : Option String := none
  project_name : Option String := none
  projectName : Option String := none
  startdate : Option Int := none
  deadline : Option Int := none
  timezone : Option String := none
  remark : Option String := none
  Remark : Option String := none
  points : Option Int := none
  qualityPoints : Option Int := none
  punches : List PunchRec := []
  createdAt : Option Int := none
  updatedAt : Option Int := none
deriving DecidableEq, Repr

/-- The document inserted by `addKpi` (src/kpi.py:505-524): `start_day` and
`deadline_day` are the parsed `YYYY-MM-DD` inputs, `off` the employee
zone's UTC offset, so `startdate` is local midnight and `deadline` local
end-of-day, both converted to UTC. -/
def addKpi_doc (validZone : String → Bool) (kpi_id : String) (emp : Employee)
    (employee_id project_name remark : String)
    (start_day deadline_day off now_utc : Int) : KpiDoc :=
  { kpiId := some kpi_id
    zoneId := employee_zone_id emp
    employeeId := some employee_id
    employeeName := emp.name
    project_name := some project_name
    startdate := some (toUtcInstant (parse_date_in_tz start_day) off)
    deadline := some (toUtcInstant (parse_eod_in_tz deadline_day) off)
    timezone := some (tz_key (employee_timezone validZone emp))
    remark := some remark
    points := some (-1)
    qualityPoints := none
    punches := []
    createdAt := some now_utc
    updatedAt := some now_utc }

/-- The state transition of `punchKpi` on the stored document
(src/kpi.py:636-664): on-time test, points update, punch append. -/
def punch_step (k : KpiDoc) (now_utc : Int) (remark : String) : KpiDoc :=
  let on_time := match k.deadline with
    | some d => decide (now_utc ≤ d)
    | none => false
  let old_pts := k.points.getD (-1)
  let np : Int × Int :=
    if on_time && (old_pts == -1) then ((1 : Int), (1 : Int) - old_pts)
    else (old_pts, 0)
  let status := if on_time = true then "On Time" else "Late Submission"
  let punch_record : PunchRec :=
    { punchDate := now_utc, remark := pyTrim remark, pointChange := np.2, status := status }
  { k with punches := k.punches ++ [punch_record]
           updatedAt := some now_utc
           points := some np.1 }

/-- A sequence of punch operations (instant, remark) applied in order. -/
def punch_many (k : KpiDoc) (ps : List (Int × String)) : KpiDoc :=
  ps.foldl (fun acc p => punch_step acc p.1 p.2) k

/-! ## Legacy normalizer and read-by-id route (src/kpi.py:368-405, 795-825) -/

/-- `_ensure_kpi_has_zone_and_timezone` (src/kpi.py:368-405): the merged
document `{**kpi, **updates}` (the accompanying persistence of `updates` is
a side effect on the store, not part of the returned value).  All `updates`
conditions read the original document. -/
def ensure_kpi_has_zone_and_timezone (ctx : Ctx) (kpi : KpiDoc) : KpiDoc :=
  let project_name' :=
    if ¬ truthy kpi.project_name ∧ truthy kpi.projectName then kpi.projectName
    else kpi.project_name
  let remark' :=
    if kpi.remark = none ∧ kpi.Remark ≠ none then kpi.Remark else kpi.remark
  let timezoneCanon :=
    if truthy kpi.timezone then some (aliasOf (strOf kpi.timezone)) else kpi.timezone
  let needEmp := ¬ truthy kpi.zoneId ∨ ¬ truthy kpi.timezone ∨ ¬ truthy kpi.employeeName
  match (if needEmp then ctx.employees.find? (fun e => e.employeeId == kpi.employeeId)
         else none) with
  | some emp =>
    let zoneId' :=
      if ¬ truthy kpi.zoneId then
        match employee_zone_id emp with
        | some zid => some zid
        | none => kpi.zoneId
      else kpi.zoneId
    let timezone' :=
      if ¬ truthy kpi.timezone then some (tz_key (employee_timezone ctx.validZone emp))
      else timezoneCanon
    let employeeName' :=
      if ¬ truthy kpi.employeeName ∧ truthy emp.name then emp.name else kpi.employeeName
    { kpi with project_name := project_name', remark := remark',
               timezone := timezone', zoneId := zoneId', employeeName := employeeName' }
  | none =>
    { kpi with project_name := project_name', remark := remark', timezone := timezoneCanon }

/-- The `success/message/status` triple of `format_response`
(src/utils.py:7-26); the `data` payload is not needed by the claims below. -/
structure Resp where
  success : Bool
  message : String
  status : Nat
deriving DecidableEq, Repr

/-- The employee-or-fallback scope block shared by `updateKpi`, `punchKpi`,
`getByKpiId`, `setQualityPoint` and `deleteKpi`
(e.g. src/kpi.py:807-817 for `getByKpiId`). -/
def scope_check_for_kpi (ctx : Ctx) (kpi : KpiDoc) : Except String Unit :=
  match ctx.employees.find? (fun e => e.employeeId == kpi.employeeId) with
  | some emp => ensure_employee_scope ctx emp
  | none =>
    if truthy kpi.zoneId then ensure_zone_allowed ctx.claims kpi.zoneId
    else if (scope ctx.claims).is_admin_all then .ok ()
    else .error "Forbidden"

/-- `getByKpiId` (src/kpi.py:795-825): the response status/message.
`PermissionError` is caught and mapped to HTTP 403 (src/kpi.py:822-823). -/
def getByKpiId (ctx : Ctx) (kpis : List KpiDoc) (kpi_id : String) : Resp :=
  match kpi_mode ctx.claims with
  | .error e => ⟨false, e, 403⟩
  | .ok _ =>
    match kpis.find? (fun k => k.kpiId == some kpi_id) with
    | none => ⟨false, "KPI not found", 404⟩
    | some kpi0 =>
      let kpi := ensure_kpi_has_zone_and_timezone ctx kpi0
      match scope_check_for_kpi ctx kpi with
      | .error e => ⟨false, e, 403⟩
      | .ok () => ⟨true, "KPI retrieved", 200⟩

/-! ## Allowed-employee computation and list/export engine
(src/kpi.py:316-361, 683-792, 997-1133) -/

/-- `_allowed_employee_ids` (src/kpi.py:316-361). -/
def allowed_employee_ids (ctx : Ctx) (selected_zone_id : Option String) :
    Except String (List String) :=
  match kpi_mode ctx.claims with
  | .error e => .error e
  | .ok mode =>
    let sc := scope ctx.claims
    if mode = .self then
      let eid := caller_employee_id ctx.claims
      .ok (if eid = "" then [] else [eid])
    else
      let sel := if truthy selected_zone_id then some (pyTrim (strOf selected_zone_id)) else none
      let zoneCheck : Except String Unit :=
        match sel with
        | some z => ensure_zone_allowed ctx.claims (some z)
        | none => .ok ()
      match zoneCheck with
      | .error e => .error e
      | .ok () =>
        let empsOpt : Option (List Employee) :=
          match sel with
          | some z => some (ctx.employees.filter (fun e => e.zoneId == some z || e.zone_id == some z))
          | none =>
            if sc.is_admin_all then some ctx.employees
            else if sc.zone_ids.isEmpty then none
            else some (ctx.employees.filter (fun e =>
              (match e.zoneId with | some zz => sc.zone_ids.contains zz | none => false) ||
              (match e.zone_id with | some zz => sc.zone_ids.contains zz | none => false)))
        match empsOpt with
        | none => .ok []
        | some emps =>
          let apply_tz_filter :=
            (mode == Mode.manage) && !sc.is_admin_all && !is_multi_zone sc.zone_ids
          let caller_tz := caller_timezone_key ctx
          .ok (emps.filterMap (fun emp =>
            let emp_id := pyTrim (strOf emp.employeeId)
            if emp_id = "" then none
            else if apply_tz_filter && (tz_key (employee_timezone ctx.validZone emp) != caller_tz)
            then none
            else some emp_id))

/-- `_normalize_employee_ids` input forms (src/kpi.py:229-242). -/
inductive EmpIdsRaw
  | null
  | ofList (xs : List String)
  | ofNum (n : Int)
  | ofStr (s : String)
deriving DecidableEq, Repr

/-- `_normalize_employee_ids` (src/kpi.py:229-242). -/
def normalize_employee_ids : EmpIdsRaw → List String
  | .null => []
  | .ofList xs => (xs.map pyTrim).filter (fun x => x ≠ "")
  | .ofNum n => [toString n]
  | .ofStr s =>
    let t := pyTrim s
    if t = "" then []
    else ((pySplitWs (pyReplaceChar ',' ' ' t)).map pyTrim).filter (fun p => p ≠ "")

/-- Request body of `getAll` / `exportCsv`, restricted to the filter,
sort, pagination and export-all fields.  `dateRange` carries the UTC pair
produced by `_parse_filter_range_to_utc` when both `startDate` and
`endDate` are present (both routes parse them with identical code and the
same `tz`/`timezone` body fields, src/kpi.py:751-756 and 1064-1069). -/
structure ListReq where
  zoneId : Option String := none
  employeeId : Option String := none
  employeeIds : EmpIdsRaw := .null
  search : Option String := none
  dateRange : Option (Int × Int) := none
  sortBy : Option String := none
  sortOrder : Option String := none
  page : Int := 1
  pageSize : Int := 10
  exportAll : Bool := false
deriving DecidableEq, Repr

/-- `selected_zone_id = (data.get("zoneId") or "").strip() or None`
(src/kpi.py:703, 1017). -/
def selected_zone_of (req : ListReq) : Option String :=
  let z := pyTrim (strOf req.zoneId)
  if z ≠ "" then some z else none

/-- The `$or` of case-insensitive regex clauses over project/employee
fields (src/kpi.py:741-748, 1054-1062); `re.escape` makes the pattern a
literal substring. -/
def matches_search (s : String) (k : KpiDoc) : Bool :=
  let rxm := fun (f : Option String) =>
    match f with
    | some v => hasSub (pyLower s).data (pyLower v).data
    | none => false
  rxm k.project_name || rxm k.projectName || rxm k.employeeName || rxm k.employeeId

/-- The Mongo query both routes build (src/kpi.py:738-756, 1052-1069):
employee membership, optional search, optional inclusive `startdate`
range. -/
def kpi_query (ids : List String) (search : Option String) (range : Option (Int × Int))
    (k : KpiDoc) : Bool :=
  (match k.employeeId with
   | some e => ids.contains e
   | none => false)
  && (let s := pyTrim (strOf search)
      if s = "" then true else matches_search s k)
  && (match range with
      | some r =>
        match k.startdate with
        | some t => decide (r.1 ≤ t) && decide (t ≤ r.2)
        | none => false
      | none => true)

/-- `ALLOWED_SORT_FIELDS` (src/kpi.py:40). -/
def ALLOWED_SORT_FIELDS : List String := ["startdate", "deadline", "createdAt", "updatedAt"]

/-- `sort_field` computation (src/kpi.py:759, 762 and 1071, 1074). -/
def sort_field_of (sortBy : Option String) : String :=
  let sb := pyTrim (pyOrStr (strOf sortBy) "createdAt")
  if ALLOWED_SORT_FIELDS.contains sb then sb else "createdAt"

/-- `sort_dir` computation (src/kpi.py:760-761 and 1072-1073). -/
def sort_dir_of (sortOrder : Option String) : Int :=
  let so := pyLower (pyOrStr (strOf sortOrder) "desc")
  if so = "desc" then -1 else 1

/-- The document field a sort key names (fallback already applied). -/
def kpiSortKey (field : String) (k : KpiDoc) : Option Int :=
  if field = "startdate" then k.startdate
  else if field = "deadline" then k.deadline
  else if field = "updatedAt" then k.updatedAt
  else k.createdAt

/-- Missing-before-present ascending order on optional keys (Mongo sorts
absent fields first ascending). -/
def optLE (a b : Option Int) : Bool :=
  match a, b with
  | none, _ => true
  | some _, none => false
  | some x, some y => decide (x ≤ y)

/-- Stable insertion used to model the store's sorted cursor. -/
def insertKpi (le : KpiDoc → KpiDoc → Bool) (x : KpiDoc) : List KpiDoc → List KpiDoc
  | [] => [x]
  | y :: ys => if le x y then x :: y :: ys else y :: insertKpi le x ys

/-- Sorting of the selected documents. -/
def sortKpisBy (le : KpiDoc → KpiDoc → Bool) : List KpiDoc → List KpiDoc
  | [] => []
  | x :: xs => insertKpi le x (sortKpisBy le xs)

/-- `cursor.sort(sort_field, sort_dir)`. -/
def sortKpis (field : String) (dir : Int) (l : List KpiDoc) : List KpiDoc :=
  sortKpisBy (fun a b =>
    if dir = -1 then optLE (kpiSortKey field b) (kpiSortKey field a)
    else optLE (kpiSortKey field a) (kpiSortKey field b)) l

/-- `getAll`'s requested-employee list (src/kpi.py:721-725). -/
def getAll_requested_ids (req : ListReq) : List String :=
  let single := pyTrim (strOf req.employeeId)
  if single ≠ "" then [single] else normalize_employee_ids req.employeeIds

/-- The record set `getAll` selects before pagination, sorted
(src/kpi.py:699-772): the early empty returns at lines 709-716 and 729-736
select the empty set; `PermissionError` propagates as `.error`. -/
def getAll_selection (ctx : Ctx) (req : ListReq) (kpis : List KpiDoc) :
    Except String (List KpiDoc) :=
  match require_manage_kpi ctx.claims with
  | .error e => .error e
  | .ok () =>
    match allowed_employee_ids ctx (selected_zone_of req) with
    | .error e => .error e
    | .ok allowed =>
      if allowed.isEmpty then .ok []
      else
        let requested₀ := getAll_requested_ids req
        let requested := requested₀.filter (fun eid => allowed.contains eid)
        if ¬ requested₀.isEmpty ∧ requested.isEmpty then .ok []
        else
          let ids := if requested.isEmpty then allowed else requested
          .ok (sortKpis (sort_field_of req.sortBy) (sort_dir_of req.sortOrder)
                (kpis.filter (kpi_query ids req.search req.dateRange)))

/-- Response of `getAll` as seen by the claims: pagination echo, total and
the returned page of documents. -/
structure PageData where
  page : Int
  pageSize : Int
  total : Nat
  kpis : List KpiDoc
deriving DecidableEq, Repr

/-- `getAll` result: success payload or the `(message, status)` of an error
response. -/
inductive GetAllResult
  | ok (d : PageData)
  | err (message : String) (status : Nat)
deriving DecidableEq, Repr

/-- `getAll` (src/kpi.py:683-792): page/pageSize clamping (lines 705-706),
count, skip/limit pagination, `PermissionError → 403`. -/
def getAll (ctx : Ctx) (req : ListReq) (kpis : List KpiDoc) : GetAllResult :=
  match getAll_selection ctx req kpis with
  | .error e => .err e 403
  | .ok sorted =>
    let page := max req.page 1
    let page_size := max req.pageSize 1
    let skip := ((page - 1) * page_size).toNat
    .ok ⟨page, page_size, sorted.length, (sorted.drop skip).take page_size.toNat⟩

/-- `export_csv`'s filtered employee list (src/kpi.py:1037-1047). -/
def export_filtered_ids (allowed : List String) (req : ListReq) : List String :=
  let emp_single := pyTrim (strOf req.employeeId)
  let emp_list := normalize_employee_ids req.employeeIds
  if emp_single ≠ "" then (if allowed.contains emp_single then [emp_single] else [])
  else if ¬ emp_list.isEmpty then emp_list.filter (fun x => allowed.contains x)
  else allowed

/-- The record set `export_csv` selects, sorted (src/kpi.py:1012-1080):
`.ok []` is the header-only CSV emitted when no employee is in scope
(lines 1019-1033); the explicit 403 of line 1050 and caught
`PermissionError`s are `.error (message, status)`. -/
def export_selection (ctx : Ctx) (req : ListReq) (kpis : List KpiDoc) :
    Except (String × Nat) (List KpiDoc) :=
  match require_manage_kpi ctx.claims with
  | .error e => .error (e, 403)
  | .ok () =>
    match allowed_employee_ids ctx (selected_zone_of req) with
    | .error e => .error (e, 403)
    | .ok allowed =>
      if allowed.isEmpty then .ok []
      else
        let filtered := export_filtered_ids allowed req
        if filtered.isEmpty then .error ("No employees allowed for export", 403)
        else
          .ok (sortKpis (sort_field_of req.sortBy) (sort_dir_of req.sortOrder)
                (kpis.filter (kpi_query filtered req.search req.dateRange)))

/-- `export_csv` result: the rows written to the CSV body (the header is
always written), or an error response. -/
inductive ExportResult
  | csv (rows : List KpiDoc)
  | err (message : String) (status : Nat)
deriving DecidableEq, Repr

/-- `export_csv` (src/kpi.py:997-1133): pagination is skipped exactly when
`all`/`exportAll` is truthy (lines 1076-1082). -/
def export_csv (ctx : Ctx) (req : ListReq) (kpis : List KpiDoc) : ExportResult :=
  match export_selection ctx req kpis with
  | .error (e, s) => .err e s
  | .ok sorted =>
    if req.exportAll then .csv sorted
    else
      let page := max req.page 1
      let page_size := max req.pageSize 1
      .csv ((sorted.drop ((page - 1) * page_size).toNat).take page_size.toNat)

/-! ## Theorems -/

/-- C6: scope resolution yields `admin` exactly when the role claim is
admin; otherwise `manage` exactly when `permissions["Manage KPI"] == 1`;
otherwise `self` exactly when `permissions["KPI"] == 1`; and when none of
these hold `_kpi_mode` fails with `PermissionError` — there is no implicit
default mode. -/
theorem kpi_mode_resolution (c : JwtClaims) :
    (kpi_mode c = .ok .admin ↔ pyLower (strOf c.role) = "admin")
    ∧ (kpi_mode c = .ok .manage ↔
        (pyLower (strOf c.role) ≠ "admin" ∧ permGet c.permissions "Manage KPI" = 1))
    ∧ (kpi_mode c = .ok .self ↔
        (pyLower (strOf c.role) ≠ "admin" ∧ permGet c.permissions "Manage KPI" ≠ 1
          ∧ permGet c.permissions "KPI" = 1))
    ∧ (kpi_mode c = .error "Permission denied (KPI)" ↔
        (pyLower (strOf c.role) ≠ "admin" ∧ permGet c.permissions "Manage KPI" ≠ 1
          ∧ permGet c.permissions "KPI" ≠ 1)) := by
  simp only [kpi_mode, scope]
  split_ifs with h1 h2 h3 <;> simp_all

/-- C7: for every date (as its day ordinal) and every zone (as its fixed UTC
offset in seconds), the end-of-day parse yields the instant whose local
reading in that zone is 23:59:59 on that date, and formatting the instant
back as a date in the same zone reproduces the original date. -/
theorem eod_parse_roundtrip (day off : Int) :
    (localOfInstant (toUtcInstant (parse_eod_in_tz day) off) off).sod = 23 * 3600 + 59 * 60 + 59
    ∧ fmt_date_in_tz (toUtcInstant (parse_eod_in_tz day) off) off = day := by
  unfold fmt_date_in_tz localOfInstant toUtcInstant parse_eod_in_tz end_of_day_local
    parse_date_in_tz
  constructor <;> simp <;> omega

/-- C9: for a caller whose role is not admin and whose zoneIds claim
normalizes to exactly `["*"]`, `is_admin_all` is false, and the
zone-membership check rejects every target zone other than the literal
string `"*"` with `Forbidden (different zone)`. -/
theorem wildcard_non_admin_forbidden (c : JwtClaims) (zid : Option String)
    (hrole : pyLower (strOf c.role) ≠ "admin")
    (hz : normalize_zone_ids c.zoneIds = ["*"])
    (hzid : zid ≠ some "*") :
    (scope c).is_admin_all = false
    ∧ ensure_zone_allowed c zid = .error "Forbidden (different zone)" := by
  have hadm : (scope c).is_admin_all = false := by
    simp only [scope]
    simp [hrole]
  refine ⟨hadm, ?_⟩
  simp only [ensure_zone_allowed, hadm]
  have hzl : (scope c).zone_ids = ["*"] := by simp [scope, hz]
  rw [hzl]
  cases zid with
  | none => simp [truthy, strOf]
  | some z =>
    have hzne : z ≠ "*" := by intro h; exact hzid (by rw [h])
    by_cases hempty : z = ""
    · simp [truthy, strOf, hempty]
    · simp [truthy, strOf, hempty, hzne]

/-- Concrete non-admin caller whose zoneIds claim is the wildcard string. -/
def cW9 : JwtClaims :=
  { role := some "subadmin", zoneIds := .ofStr "*", employeeId := some "M1",
    permissions := [("Manage KPI", 1)] }

/-- Witness for C9 at a concrete caller and target zone. -/
theorem wildcard_non_admin_forbidden_witness :
    (scope cW9).is_admin_all = false
    ∧ ensure_zone_allowed cW9 (some "Z1") = .error "Forbidden (different zone)" :=
  wildcard_non_admin_forbidden cW9 (some "Z1") (by decide) (by decide) (by decide)

/-- `punchKpi` never touches the stored deadline. -/
theorem punch_step_deadline (k : KpiDoc) (now : Int) (r : String) :
    (punch_step k now r).deadline = k.deadline := by
  simp [punch_step]

/-- Once `points` is 1, a punch leaves it at 1. -/
theorem punch_step_points_of_one (k : KpiDoc) (now : Int) (r : String)
    (h1 : k.points = some 1) :
    (punch_step k now r).points = some 1 := by
  simp only [punch_step, h1]
  split <;> simp_all

/-- From `points = -1`, a punch scores exactly when it is on time. -/
theorem punch_step_points_of_neg (k : KpiDoc) (now : Int) (r : String) (d : Int)
    (hd : k.deadline = some d) (h1 : k.points = some (-1)) :
    (punch_step k now r).points = some (if now ≤ d then 1 else -1) := by
  simp only [punch_step, hd, h1]
  by_cases ht : now ≤ d <;> simp [ht]

/-- Invariant of an arbitrary punch sequence from a state whose points are
already in {-1, 1}: points end at 1 exactly when they started at 1 or some
punch was on time; they stay in {-1, 1}; the deadline is preserved. -/
theorem punch_many_points_spec (d : Int) (ps : List (Int × String)) :
    ∀ k : KpiDoc, k.deadline = some d → (k.points = some (-1) ∨ k.points = some 1) →
      ((punch_many k ps).points = some 1 ↔ (k.points = some 1 ∨ ∃ p ∈ ps, p.1 ≤ d))
      ∧ ((punch_many k ps).points = some (-1) ∨ (punch_many k ps).points = some 1)
      ∧ (punch_many k ps).deadline = some d := by
  induction ps with
  | nil =>
    intro k hd hp
    refine ⟨?_, hp, hd⟩
    simp only [punch_many, List.foldl_nil]
    constructor
    · intro h; exact Or.inl h
    · rintro (h | ⟨p, hmem, _⟩)
      · exact h
      · exact absurd hmem (List.not_mem_nil p)
  | cons p ps ih =>
    intro k hd hp
    have hstep : punch_many k (p :: ps) = punch_many (punch_step k p.1 p.2) ps := rfl
    have hd' : (punch_step k p.1 p.2).deadline = some d := by
      rw [punch_step_deadline, hd]
    rcases hp with h1 | h1
    · by_cases ht : p.1 ≤ d
      · have hpts : (punch_step k p.1 p.2).points = some 1 := by
          rw [punch_step_points_of_neg k p.1 p.2 d hd h1]; simp [ht]
        have h := ih (punch_step k p.1 p.2) hd' (Or.inr hpts)
        rw [hstep]
        refine ⟨?_, h.2.1, h.2.2⟩
        exact iff_of_true (h.1.mpr (Or.inl hpts))
          (Or.inr ⟨p, List.mem_cons_self p ps, ht⟩)
      · have hpts : (punch_step k p.1 p.2).points = some (-1) := by
          rw [punch_step_points_of_neg k p.1 p.2 d hd h1]; simp [ht]
        have h := ih (punch_step k p.1 p.2) hd' (Or.inl hpts)
        rw [hstep]
        refine ⟨?_, h.2.1, h.2.2⟩
        rw [h.1, hpts]
        constructor
        · rintro (hc | ⟨q, hq, hqd⟩)
          · exact absurd hc (by simp)
          · exact Or.inr ⟨q, List.mem_cons_of_mem p hq, hqd⟩
        · rintro (hc | ⟨q, hq, hqd⟩)
          · rw [h1] at hc; exact absurd hc (by simp)
          · rcases List.mem_cons.mp hq with rfl | hq'
            · exact absurd hqd ht
            · exact Or.inr ⟨q, hq', hqd⟩
    · have hpts : (punch_step k p.1 p.2).points = some 1 :=
        punch_step_points_of_one k p.1 p.2 h1
      have h := ih (punch_step k p.1 p.2) hd' (Or.inr hpts)
      rw [hstep]
      refine ⟨?_, h.2.1, h.2.2⟩
      exact iff_of_true (h.1.mpr (Or.inl hpts)) (Or.inl h1)

/-- C1: a KPI created by `addKpi` has `points = -1`; after any sequence of
punches, `points` is 1 exactly when some punch was at or before the stored
deadline; `points` only ever takes the values -1 and 1; and once it is 1,
no further punch sequence changes it. -/
theorem kpi_points_lifecycle (vz : String → Bool) (kid : String) (emp : Employee)
    (eid pn rem : String) (sd dd off now : Int) (ps more : List (Int × String)) :
    (addKpi_doc vz kid emp eid pn rem sd dd off now).points = some (-1)
    ∧ ((punch_many (addKpi_doc vz kid emp eid pn rem sd dd off now) ps).points = some 1
        ↔ ∃ p ∈ ps, p.1 ≤ toUtcInstant (parse_eod_in_tz dd) off)
    ∧ ((punch_many (addKpi_doc vz kid emp eid pn rem sd dd off now) ps).points = some (-1)
        ∨ (punch_many (addKpi_doc vz kid emp eid pn rem sd dd off now) ps).points = some 1)
    ∧ ((punch_many (addKpi_doc vz kid emp eid pn rem sd dd off now) ps).points = some 1 →
        (punch_many (punch_many (addKpi_doc vz kid emp eid pn rem sd dd off now) ps) more).points
          = some 1) := by
  set k0 := addKpi_doc vz kid emp eid pn rem sd dd off now with hk0
  have hd : k0.deadline = some (toUtcInstant (parse_eod_in_tz dd) off) := rfl
  have hp0 : k0.points = some (-1) := rfl
  have h := punch_many_points_spec _ ps k0 hd (Or.inl hp0)
  refine ⟨hp0, ?_, h.2.1, ?_⟩
  · rw [h.1, hp0]
    constructor
    · rintro (hc | hx)
      · exact absurd hc (by simp)
      · exact hx
    · exact fun hx => Or.inr hx
  · intro h1
    have h2 := punch_many_points_spec _ more (punch_many k0 ps) h.2.2 (Or.inr h1)
    exact h2.1.mpr (Or.inl h1)

/-- A concrete employee in zone Z1 with an explicit IANA timezone. -/
def empE1 : Employee :=
  { employeeId := some "E1", zoneId := some "Z1",
    timezone := some "Asia/Kolkata", name := some "Alice" }

/-- tzdata oracle for the concrete examples. -/
def vzStd : String → Bool := fun s =>
  s = "Asia/Kolkata" || s = "America/Los_Angeles" || s = "UTC"

/-- KPI created for `empE1` with deadline on day 0 in a zone at UTC offset
+19800 s (IST): the stored deadline instant is 86399 - 19800 = 66599. -/
def kpiC2 : KpiDoc := addKpi_doc vzStd "K1" empE1 "E1" "Proj" "" 0 0 19800 0

/-- C2 counterexample: the first on-time punch on a fresh KPI records
`pointChange = 2` (the code stores `new_pts - old_pts = 1 - (-1)`), not the
claimed +1. -/
theorem punch_pointChange_counterexample :
    kpiC2.points = some (-1)
    ∧ kpiC2.deadline = some 66599
    ∧ (punch_step kpiC2 50 "r").punches =
        [{ punchDate := 50, remark := "r", pointChange := 2, status := "On Time" }]
    ∧ ((2 : Int) ≠ 1) := by
  refine ⟨rfl, rfl, ?_, by decide⟩
  rfl

/-- C2 (amended): a punch appends one record; if the punch is on time and
`points` is still -1 the record carries `pointChange = 2` (new minus old
value) and `points` becomes 1; on every other punch the record carries
`pointChange = 0` and `points` is unchanged. -/
theorem punch_pointChange_amended (k : KpiDoc) (now : Int) (r : String) (d : Int)
    (hd : k.deadline = some d) (hp : k.points = some (-1) ∨ k.points = some 1) :
    (punch_step k now r).punches =
      k.punches ++ [{ punchDate := now, remark := pyTrim r,
                      pointChange := if now ≤ d ∧ k.points = some (-1) then 2 else 0,
                      status := if now ≤ d then "On Time" else "Late Submission" }]
    ∧ ((now ≤ d ∧ k.points = some (-1)) → (punch_step k now r).points = some 1)
    ∧ (¬ (now ≤ d ∧ k.points = some (-1)) → (punch_step k now r).points = k.points) := by
  rcases hp with h1 | h1 <;> by_cases ht : now ≤ d <;>
    simp [punch_step, hd, h1, ht]

/-- Witness for the amended C2 at the concrete KPI `kpiC2` and punch
instant 50 (on time, points still -1). -/
theorem punch_pointChange_amended_witness :
    kpiC2.deadline = some 66599
    ∧ ((punch_step kpiC2 50 "r").punches =
        kpiC2.punches ++ [{ punchDate := 50, remark := pyTrim "r",
                            pointChange := if (50 : Int) ≤ 66599 ∧ kpiC2.points = some (-1)
                                           then 2 else 0,
                            status := if (50 : Int) ≤ 66599 then "On Time"
                                      else "Late Submission" }]
      ∧ (((50 : Int) ≤ 66599 ∧ kpiC2.points = some (-1)) →
          (punch_step kpiC2 50 "r").points = some 1)
      ∧ (¬ ((50 : Int) ≤ 66599 ∧ kpiC2.points = some (-1)) →
          (punch_step kpiC2 50 "r").points = kpiC2.points)) :=
  ⟨rfl, punch_pointChange_amended kpiC2 50 "r" 66599 rfl (Or.inl rfl)⟩

/-- `getAll`'s selected set depends on `sortBy` only through the resolved
sort field. -/
theorem getAll_selection_sortBy_congr (ctx : Ctx) (req : ListReq) (kpis : List KpiDoc)
    (sb1 sb2 : Option String) (h : sort_field_of sb1 = sort_field_of sb2) :
    getAll_selection ctx { req with sortBy := sb1 } kpis
      = getAll_selection ctx { req with sortBy := sb2 } kpis := by
  simp only [getAll_selection, selected_zone_of, getAll_requested_ids, h]

/-- `export_csv`'s selected set depends on `sortBy` only through the
resolved sort field. -/
theorem export_selection_sortBy_congr (ctx : Ctx) (req : ListReq) (kpis : List KpiDoc)
    (sb1 sb2 : Option String) (h : sort_field_of sb1 = sort_field_of sb2) :
    export_selection ctx { req with sortBy := sb1 } kpis
      = export_selection ctx { req with sortBy := sb2 } kpis := by
  simp only [export_selection, selected_zone_of, export_filtered_ids, h]

/-- C10 counterexample: `sortOrder = "foo"` is neither `"asc"` nor `"desc"`,
yet the computed direction is 1 (ascending), not -1 (descending) — the code
sorts descending only for (case-insensitive) `"desc"`. -/
theorem sort_order_fallback_counterexample :
    sort_dir_of (some "foo") = 1
    ∧ sort_dir_of (some "desc") = -1
    ∧ ("foo" : String) ≠ "asc" :=
  ⟨by decide, by decide, by decide⟩

/-- C10 (amended): an out-of-allow-list `sortBy` silently falls back to
`createdAt` — both the list and the export behave exactly as if
`sortBy = "createdAt"` had been sent, with no error — and the direction is
descending exactly when `sortOrder` lowercases to `"desc"` (the default),
ascending for every other value including unknown ones. -/
theorem sort_fallback_behavior (sb so : Option String) (ctx : Ctx) (req : ListReq)
    (kpis : List KpiDoc)
    (hsb : ALLOWED_SORT_FIELDS.contains (pyTrim (pyOrStr (strOf sb) "createdAt")) = false) :
    sort_field_of sb = "createdAt"
    ∧ (sort_dir_of so = -1 ↔ pyLower (pyOrStr (strOf so) "desc") = "desc")
    ∧ (sort_dir_of so = 1 ↔ pyLower (pyOrStr (strOf so) "desc") ≠ "desc")
    ∧ getAll_selection ctx { req with sortBy := sb } kpis
        = getAll_selection ctx { req with sortBy := some "createdAt" } kpis
    ∧ export_selection ctx { req with sortBy := sb } kpis
        = export_selection ctx { req with sortBy := some "createdAt" } kpis := by
  have hf : sort_field_of sb = "createdAt" := by
    simp only [sort_field_of]
    rw [if_neg]
    intro hc
    rw [hc] at hsb
    exact Bool.noConfusion hsb
  have hf2 : sort_field_of (some "createdAt") = "createdAt" := by decide
  refine ⟨hf, ?_, ?_, ?_, ?_⟩
  · simp only [sort_dir_of]
    split_ifs with h <;> simp [h]
  · simp only [sort_dir_of]
    split_ifs with h <;> simp [h]
  · exact getAll_selection_sortBy_congr ctx req kpis sb (some "createdAt") (hf.trans hf2.symm)
  · exact export_selection_sortBy_congr ctx req kpis sb (some "createdAt") (hf.trans hf2.symm)

/-- Admin caller over the full directory, for concrete evaluations. -/
def ctxAdmin : Ctx :=
  { claims := { role := some "admin", zoneIds := .null, employeeId := some "A1",
                permissions := [] },
    validZone := vzStd,
    employees := [empE1] }

/-- Witness for the amended C10 at `sortBy = "bogus"`, `sortOrder = "foo"`. -/
theorem sort_fallback_behavior_witness :
    sort_field_of (some "bogus") = "createdAt"
    ∧ (sort_dir_of (some "foo") = -1 ↔ pyLower (pyOrStr (strOf (some "foo")) "desc") = "desc")
    ∧ (sort_dir_of (some "foo") = 1 ↔ pyLower (pyOrStr (strOf (some "foo")) "desc") ≠ "desc")
    ∧ getAll_selection ctxAdmin { ({} : ListReq) with sortBy := some "bogus" } []
        = getAll_selection ctxAdmin { ({} : ListReq) with sortBy := some "createdAt" } []
    ∧ export_selection ctxAdmin { ({} : ListReq) with sortBy := some "bogus" } []
        = export_selection ctxAdmin { ({} : ListReq) with sortBy := some "createdAt" } [] :=
  sort_fallback_behavior (some "bogus") (some "foo") ctxAdmin {} [] (by decide)

/-- A caller in manage mode is never admin-all (mode `manage` requires a
non-admin role, and `is_admin_all` requires the admin role). -/
theorem manage_not_admin_all (c : JwtClaims) (hm : kpi_mode c = .ok .manage) :
    (scope c).is_admin_all = false := by
  simp only [kpi_mode] at hm
  by_cases h : (scope c).role = "admin"
  · simp [h] at hm
  · simp only [scope] at h ⊢
    simp [h]

/-- Control-flow shape of `_ensure_employee_scope` in manage mode
(src/kpi.py:292-300): zone check first, then the single-zone timezone
restriction. -/
theorem ensure_employee_scope_manage (ctx : Ctx) (emp : Employee)
    (hm : kpi_mode ctx.claims = .ok .manage) :
    ensure_employee_scope ctx emp =
      match ensure_zone_allowed ctx.claims (employee_zone_id emp) with
      | .error e => .error e
      | .ok () =>
        if ¬ (scope ctx.claims).is_admin_all ∧ ¬ is_multi_zone (scope ctx.claims).zone_ids then
          if tz_key (employee_timezone ctx.validZone emp) ≠ caller_timezone_key ctx then
            .error "Forbidden: Manage KPI allows same-timezone employees only"
          else .ok ()
        else .ok () := by
  simp only [ensure_employee_scope, hm, bind, Except.bind]
  cases hz : ensure_zone_allowed ctx.claims (employee_zone_id emp) <;> simp

/-- C3: for a manage-mode caller, when the allowed zone set is single-zone
(no wildcard, at most one zone), authorization of a target employee
succeeds exactly when the zone check passes and the target's resolved
timezone equals the caller's; when the zone set is multi-zone, the
timezone restriction is waived and the zone check alone decides. -/
theorem manage_timezone_gate (ctx : Ctx) (emp : Employee)
    (hm : kpi_mode ctx.claims = .ok .manage) :
    (is_multi_zone (scope ctx.claims).zone_ids = false →
      (ensure_employee_scope ctx emp = .ok () ↔
        (ensure_zone_allowed ctx.claims (employee_zone_id emp) = .ok ()
          ∧ tz_key (employee_timezone ctx.validZone emp) = caller_timezone_key ctx)))
    ∧ (is_multi_zone (scope ctx.claims).zone_ids = true →
      (ensure_employee_scope ctx emp = .ok () ↔
        ensure_zone_allowed ctx.claims (employee_zone_id emp) = .ok ())) := by
  have hadm := manage_not_admin_all ctx.claims hm
  rw [ensure_employee_scope_manage ctx emp hm]
  constructor
  · intro hmz
    cases hz : ensure_zone_allowed ctx.claims (employee_zone_id emp) with
    | error e => simp [hadm, hmz]
    | ok u =>
      cases u
      simp only [hadm, hmz]
      by_cases htz : tz_key (employee_timezone ctx.validZone emp) = caller_timezone_key ctx <;>
        simp [htz]
  · intro hmz
    cases hz : ensure_zone_allowed ctx.claims (employee_zone_id emp) with
    | error e => simp [hadm, hmz]
    | ok u => cases u; simp [hadm, hmz]

/-- Concrete subadmin with `Manage KPI` over the single zone Z1, whose own
timezone resolves to Asia/Kolkata. -/
def ctxC3 : Ctx :=
  { claims := { role := some "subadmin", zoneIds := .ofList ["Z1"],
                employeeId := some "M1", permissions := [("Manage KPI", 1)] },
    validZone := vzStd,
    employees :=
      [ { employeeId := some "M1", zoneId := some "Z1",
          timezone := some "Asia/Kolkata", name := some "Mgr" },
        { employeeId := some "E2", zoneId := some "Z1",
          timezone := some "America/Los_Angeles", name := some "Bob" } ] }

/-- Same-zone target employee with a different resolved timezone. -/
def empC3 : Employee :=
  { employeeId := some "E2", zoneId := some "Z1",
    timezone := some "America/Los_Angeles", name := some "Bob" }

/-- Witness for C3 at the concrete single-zone manage caller `ctxC3` and
cross-timezone target `empC3`. -/
theorem manage_timezone_gate_witness :
    kpi_mode ctxC3.claims = .ok .manage
    ∧ ((is_multi_zone (scope ctxC3.claims).zone_ids = false →
          (ensure_employee_scope ctxC3 empC3 = .ok () ↔
            (ensure_zone_allowed ctxC3.claims (employee_zone_id empC3) = .ok ()
              ∧ tz_key (employee_timezone ctxC3.validZone empC3)
                  = caller_timezone_key ctxC3)))
        ∧ (is_multi_zone (scope ctxC3.claims).zone_ids = true →
          (ensure_employee_scope ctxC3 empC3 = .ok () ↔
            ensure_zone_allowed ctxC3.claims (employee_zone_id empC3) = .ok ()))) :=
  ⟨by rfl, manage_timezone_gate ctxC3 empC3 (by rfl)⟩

/-- Self-mode caller E1 in zone Z1. -/
def ctxC4 : Ctx :=
  { claims := { role := some "employee", zoneIds := .ofList ["Z1"],
                employeeId := some "E1", permissions := [("KPI", 1)] },
    validZone := vzStd,
    employees :=
      [ { employeeId := some "E1", zoneId := some "Z1",
          timezone := some "Asia/Kolkata", name := some "Alice" },
        { employeeId := some "E2", zoneId := some "Z1",
          timezone := some "Asia/Kolkata", name := some "Bob" } ] }

/-- Existing KPI owned by E2 — outside the self-mode caller's scope. -/
def kpiC4 : KpiDoc :=
  { kpiId := some "K1", zoneId := some "Z1", employeeId := some "E2",
    employeeName := some "Bob", project_name := some "P", startdate := some 0,
    deadline := some 66599, timezone := some "Asia/Kolkata", remark := some "",
    points := some (-1), createdAt := some 0, updatedAt := some 0 }

/-- C4 counterexample: the KPI exists but its owner is outside the caller's
scope, and `getByKpiId` answers 403 Forbidden — not the claimed NotFound. -/
theorem getByKpiId_forbidden_counterexample :
    (([kpiC4] : List KpiDoc).find? (fun k => k.kpiId == some "K1")).isSome = true
    ∧ getByKpiId ctxC4 [kpiC4] "K1"
        = ⟨false, "Forbidden: KPI permission allows self-only", 403⟩
    ∧ ((403 : Nat) ≠ 404) :=
  ⟨by rfl, by rfl, by decide⟩

/-- C4 (amended): when the referenced KPI exists but its owning employee is
outside the caller's scope, `getByKpiId` surfaces the guard's error as 403
Forbidden — not NotFound; `KPI not found` (404) is returned exactly when no
KPI carries the requested id. -/
theorem getByKpiId_scope_error_mapping (ctx : Ctx) (kpis : List KpiDoc) (kid : String) :
    (∀ m kpi e, kpi_mode ctx.claims = .ok m →
       kpis.find? (fun k => k.kpiId == some kid) = some kpi →
       scope_check_for_kpi ctx (ensure_kpi_has_zone_and_timezone ctx kpi) = .error e →
       getByKpiId ctx kpis kid = ⟨false, e, 403⟩)
    ∧ (∀ m, kpi_mode ctx.claims = .ok m →
       kpis.find? (fun k => k.kpiId == some kid) = none →
       getByKpiId ctx kpis kid = ⟨false, "KPI not found", 404⟩) := by
  constructor
  · intro m kpi e hm hf hs
    simp [getByKpiId, hm, hf, hs]
  · intro m hm hf
    simp [getByKpiId, hm, hf]

/-- Witness for the amended C4 at the concrete out-of-scope read. -/
theorem getByKpiId_scope_error_mapping_witness :
    getByKpiId ctxC4 [kpiC4] "K1"
      = ⟨false, "Forbidden: KPI permission allows self-only", 403⟩ :=
  (getByKpiId_scope_error_mapping ctxC4 [kpiC4] "K1").1 .self kpiC4
    "Forbidden: KPI permission allows self-only" (by rfl) (by rfl) (by rfl)

/-- `export_csv`'s employee filtering (single id, list, or none;
src/kpi.py:1037-1047) computes the same id set as `getAll`'s requested-id
intersection (src/kpi.py:721-738). -/
theorem export_filtered_ids_eq (allowed : List String) (req : ListReq) :
    export_filtered_ids allowed req =
      if (getAll_requested_ids req).isEmpty then allowed
      else (getAll_requested_ids req).filter (fun x => allowed.contains x) := by
  simp only [export_filtered_ids, getAll_requested_ids]
  by_cases hs : pyTrim (strOf req.employeeId) = ""
  · simp only [hs, ne_eq, not_true_eq_false, if_false, ite_not]
  · simp only [hs, ne_eq, not_false_eq_true, if_true]
    have : ([pyTrim (strOf req.employeeId)] : List String).isEmpty = false := rfl
    rw [this]
    simp only [Bool.false_eq_true, if_false, List.filter]
    by_cases hc : pyTrim (strOf req.employeeId) ∈ allowed <;> simp [hc]

/-- C5 counterexample request: explicitly asks for employee E9, which is not
in `ctxAdmin`'s allowed set `["E1"]`. -/
def reqC5 : ListReq := { employeeId := some "E9" }

/-- C5 counterexample: with a nonempty allowed set and an empty
intersection with the requested employee id, the CSV export returns the 403
error `No employees allowed for export` — not an empty, valid CSV (while
`getAll` does return an empty success page on the same input). -/
theorem export_empty_intersection_counterexample :
    export_csv ctxAdmin reqC5 [] = .err "No employees allowed for export" 403
    ∧ getAll ctxAdmin reqC5 [] = .ok ⟨1, 10, 0, []⟩ :=
  ⟨by rfl, by rfl⟩

/-- C5 (amended): when the explicitly requested employee ids intersect the
caller's allowed set emptily (the allowed set itself being nonempty),
`listKpis` returns a successful empty page (zero items, total 0), but
`exportKpisCsv` returns a 403 `No employees allowed for export` error
instead of an empty CSV. -/
theorem empty_intersection_results (ctx : Ctx) (req : ListReq) (kpis : List KpiDoc)
    (allowed : List String)
    (hmk : require_manage_kpi ctx.claims = .ok ())
    (hal : allowed_employee_ids ctx (selected_zone_of req) = .ok allowed)
    (hne : allowed.isEmpty = false)
    (hr0 : (getAll_requested_ids req).isEmpty = false)
    (hint : (getAll_requested_ids req).filter (fun eid => allowed.contains eid) = []) :
    getAll ctx req kpis = .ok ⟨max req.page 1, max req.pageSize 1, 0, []⟩
    ∧ export_csv ctx req kpis = .err "No employees allowed for export" 403 := by
  have hsel : getAll_selection ctx req kpis = .ok [] := by
    simp only [getAll_selection, hmk, hal, hne, hint]
    simp [hr0]
  have hfil : export_filtered_ids allowed req = [] := by
    rw [export_filtered_ids_eq, if_neg (by simp [hr0]), hint]
  have hexp : export_selection ctx req kpis = .error ("No employees allowed for export", 403) := by
    simp only [export_selection, hmk, hal, hne, hfil]
    simp
  constructor
  · simp [getAll, hsel]
  · simp [export_csv, hexp]

/-- Witness for the amended C5 at the concrete admin caller and request. -/
theorem empty_intersection_results_witness :
    getAll ctxAdmin reqC5 [] = .ok ⟨max reqC5.page 1, max reqC5.pageSize 1, 0, []⟩
    ∧ export_csv ctxAdmin reqC5 [] = .err "No employees allowed for export" 403 :=
  empty_intersection_results ctxAdmin reqC5 [] ["E1"]
    (by rfl) (by rfl) (by rfl) (by rfl) (by rfl)

/-- Closed form of `export_selection` once permission and allowed-set
computation have succeeded with a nonempty allowed set. -/
theorem export_selection_shape (ctx : Ctx) (req : ListReq) (kpis : List KpiDoc)
    (allowed : List String)
    (hmk : require_manage_kpi ctx.claims = .ok ())
    (hal : allowed_employee_ids ctx (selected_zone_of req) = .ok allowed)
    (hne : allowed.isEmpty = false) :
    export_selection ctx req kpis =
      if (export_filtered_ids allowed req).isEmpty then
        .error ("No employees allowed for export", 403)
      else
        .ok (sortKpis (sort_field_of req.sortBy) (sort_dir_of req.sortOrder)
              (kpis.filter (kpi_query (export_filtered_ids allowed req)
                req.search req.dateRange))) := by
  simp [export_selection, hmk, hal, hne]

/-- Closed form of `getAll_selection` once permission and allowed-set
computation have succeeded with a nonempty allowed set. -/
theorem getAll_selection_shape (ctx : Ctx) (req : ListReq) (kpis : List KpiDoc)
    (allowed : List String)
    (hmk : require_manage_kpi ctx.claims = .ok ())
    (hal : allowed_employee_ids ctx (selected_zone_of req) = .ok allowed)
    (hne : allowed.isEmpty = false) :
    getAll_selection ctx req kpis =
      (if ¬ (getAll_requested_ids req).isEmpty
          ∧ ((getAll_requested_ids req).filter (fun eid => allowed.contains eid)).isEmpty
       then .ok []
       else
         .ok (sortKpis (sort_field_of req.sortBy) (sort_dir_of req.sortOrder)
               (kpis.filter (kpi_query
                 (if ((getAll_requested_ids req).filter
                       (fun eid => allowed.contains eid)).isEmpty
                  then allowed
                  else (getAll_requested_ids req).filter (fun eid => allowed.contains eid))
                 req.search req.dateRange)))) := by
  simp [getAll_selection, hmk, hal, hne]

/-- C8: given identical filters, the CSV export and the list query select
the same underlying record set: whenever the export succeeds its rows are
exactly the list query's pre-pagination selection, and with `all=true` the
export emits them without pagination; when the export errors instead,
either it is the empty-intersection 403 (where the list selection is the
empty set), or both operations fail with the same guard error. -/
theorem export_matches_list_selection (ctx : Ctx) (req : ListReq) (kpis : List KpiDoc) :
    (∀ rows, export_selection ctx req kpis = .ok rows →
       getAll_selection ctx req kpis = .ok rows
       ∧ (req.exportAll = true → export_csv ctx req kpis = .csv rows))
    ∧ (∀ e s, export_selection ctx req kpis = .error (e, s) →
       (e = "No employees allowed for export" ∧ getAll_selection ctx req kpis = .ok [])
       ∨ getAll_selection ctx req kpis = .error e) := by
  cases hmk : require_manage_kpi ctx.claims with
  | error e0 =>
    have hexp : export_selection ctx req kpis = .error (e0, 403) := by
      simp [export_selection, hmk]
    have hget : getAll_selection ctx req kpis = .error e0 := by
      simp [getAll_selection, hmk]
    constructor
    · intro rows h; rw [hexp] at h; exact absurd h (by simp)
    · intro e s h
      rw [hexp] at h
      simp only [Except.error.injEq, Prod.mk.injEq] at h
      right; rw [hget, h.1]
  | ok u =>
    cases u
    cases hal : allowed_employee_ids ctx (selected_zone_of req) with
    | error e0 =>
      have hexp : export_selection ctx req kpis = .error (e0, 403) := by
        simp [export_selection, hmk, hal]
      have hget : getAll_selection ctx req kpis = .error e0 := by
        simp [getAll_selection, hmk, hal]
      constructor
      · intro rows h; rw [hexp] at h; exact absurd h (by simp)
      · intro e s h
        rw [hexp] at h
        simp only [Except.error.injEq, Prod.mk.injEq] at h
        right; rw [hget, h.1]
    | ok allowed =>
      by_cases hne : allowed.isEmpty
      · have hexp : export_selection ctx req kpis = .ok [] := by
          simp [export_selection, hmk, hal, hne]
        have hget : getAll_selection ctx req kpis = .ok [] := by
          simp [getAll_selection, hmk, hal, hne]
        constructor
        · intro rows h
          rw [hexp] at h
          simp only [Except.ok.injEq] at h
          subst h
          exact ⟨hget, fun hx => by simp [export_csv, hexp, hx]⟩
        · intro e s h; rw [hexp] at h; exact absurd h (by simp)
      · have hne' : allowed.isEmpty = false := by
          exact Bool.not_eq_true _ ▸ (by simpa using hne)
        have hfe := export_filtered_ids_eq allowed req
        have hexp := export_selection_shape ctx req kpis allowed hmk hal hne'
        have hget := getAll_selection_shape ctx req kpis allowed hmk hal hne'
        by_cases hr0 : (getAll_requested_ids req).isEmpty
        · -- no explicit employee filter: both select over `allowed`
          have hreq : (getAll_requested_ids req).filter (fun eid => allowed.contains eid) = [] := by
            rw [List.isEmpty_iff.mp hr0]; rfl
          have hfil : export_filtered_ids allowed req = allowed := by rw [hfe, if_pos hr0]
          rw [hfil, hne'] at hexp
          rw [hreq] at hget
          simp only [hr0, Bool.not_true, List.isEmpty_nil, and_true] at hget
          simp only [Bool.false_eq_true, if_false] at hexp
          simp only [List.isEmpty_nil, if_true, false_and, if_false] at hget
          constructor
          · intro rows h
            rw [hexp] at h
            simp only [Except.ok.injEq] at h
            subst h
            refine ⟨?_, fun hx => by simp [export_csv, hexp, hx]⟩
            rw [hget]; simp
          · intro e s h; rw [hexp] at h; exact absurd h (by simp)
        · -- explicit employee filter present
          have hr0' : (getAll_requested_ids req).isEmpty = false := by simpa using hr0
          have hfil : export_filtered_ids allowed req
              = (getAll_requested_ids req).filter (fun eid => allowed.contains eid) := by
            rw [hfe, if_neg hr0]
          rw [hfil] at hexp
          by_cases hreq : ((getAll_requested_ids req).filter (fun eid => allowed.contains eid)).isEmpty
          · rw [if_pos hreq] at hexp
            rw [if_pos ⟨by simp [hr0'], hreq⟩] at hget
            constructor
            · intro rows h; rw [hexp] at h; exact absurd h (by simp)
            · intro e s h
              rw [hexp] at h
              simp only [Except.error.injEq, Prod.mk.injEq] at h
              left; exact ⟨h.1.symm, hget⟩
          · rw [if_neg hreq] at hexp
            rw [if_neg (fun hc => hreq hc.2), if_neg hreq] at hget
            constructor
            · intro rows h
              rw [hexp] at h
              simp only [Except.ok.injEq] at h
              subst h
              exact ⟨hget, fun hx => by simp [export_csv, hexp, hx]⟩
            · intro e s h; rw [hexp] at h; exact absurd h (by simp)

/-- Export request with `all=true` and no filters. -/
def reqW8 : ListReq := { exportAll := true }

/-- Witness for C8 at a concrete succeeding export: the list selection
matches the export's rows, and `all=true` emits them unpaginated. -/
theorem export_matches_list_selection_witness :
    getAll_selection ctxAdmin reqW8 [] = .ok []
    ∧ (reqW8.exportAll = true → export_csv ctxAdmin reqW8 [] = .csv []) :=
  (export_matches_list_selection ctxAdmin reqW8 []).1 [] (by rfl)

end KpiBackend
